import Mathlib

/-!
Shallow embedding of the computational core of src/app.py (StockTracker-Pro):
the technical-indicator routine `calculate_technical_indicators` (lines 69-123)
and the US-stock filter of the search endpoint `search_symbols` (lines 239-273).

Numbers are modelled as exact rationals; the float values NaN and the signed
infinities that pandas produces are modelled explicitly where they can arise.  The annualized
volatility is `std * 252 ** 0.5`; its pre-rounding value is the square root of
a rational, modelled symbolically (`EValue.sqrtv`) and resolved exactly when
the 2-decimal rounding is applied.
-/

-- The arithmetic on ℚ is marked irreducible upstream; the concrete
-- evaluations below need it to reduce.
set_option allowUnsafeReducibility true
attribute [semireducible] Rat.add Rat.mul Rat.sub Rat.div Rat.inv Rat.neg Rat.ofScientific

set_option maxRecDepth 40000

namespace StockTrackerPro

/-- One cell of the historical table: a numeric value (numbers and numeric
strings, both parsed by pandas `to_numeric`) or a non-numeric entry, which
`to_numeric(..., errors='coerce')` turns into NaN and plain `to_numeric`
rejects with an exception. -/
inductive Entry where
  | num (q : ℚ)
  | other
deriving DecidableEq

/-- One price bar of the historical DataFrame: the close, high and low
columns `c`, `h`, `l` read by `calculate_technical_indicators`. -/
structure Row where
  c : Entry
  h : Entry
  l : Entry
deriving DecidableEq

/-- A cell of the derived `returns` column (`pct_change` output): NaN (first
row, or a 0/0 division), a signed infinity (nonzero close divided by a zero
previous close), or a finite value. -/
inductive RVal where
  | nanR
  | infR (neg : Bool)
  | finR (q : ℚ)
deriving DecidableEq

/-- The DataFrame passed to `calculate_technical_indicators`: its rows plus
the optional `returns` column that line 93 of app.py adds in place. -/
structure DataFrame where
  rows : List Row
  returnsCol : Option (List RVal) := none
deriving DecidableEq

/-- An indicator value before rounding: a finite rational, NaN, or the
(generally irrational) nonnegative square root of a rational — the form taken
by the annualized volatility `std * 252 ** 0.5 = sqrt(252 * variance)`. -/
inductive EValue where
  | fin (q : ℚ)
  | nanV
  | sqrtv (q : ℚ)
deriving DecidableEq

/-- The qualitative position label `above` / `below` of line 105/110. -/
inductive Trend where
  | above
  | below
deriving DecidableEq

/-- The dictionary returned on success by `calculate_technical_indicators`
(lines 82-119).  `none` models Python `None` (the explicit absent marker);
`EValue.nanV` models a float NaN, which is distinct from `None`. -/
structure IndicatorSet where
  ma_20 : Option ℚ
  ma_50 : Option ℚ
  ma_200 : Option ℚ
  rsi : Option EValue
  volatility_30d : EValue
  high_52w : ℚ
  low_52w : ℚ
  current_price : ℚ
  vs_ma50 : Option Trend
  vs_ma200 : Option Trend
deriving DecidableEq

/-- `pd.to_numeric(..., errors='coerce')` on one cell (line 79): numeric
entries keep their value, non-numeric entries become the missing marker. -/
def coerceEntry : Entry → Option ℚ
  | .num q => some q
  | .other => none

/-- Whether a cell makes strict `pd.to_numeric` (lines 93, 97, 98) raise. -/
def entryBad : Entry → Bool
  | .num _ => false
  | .other => true

/-- The numeric values of the close column after coercion (line 79).  On the
success path every entry is numeric, so this list has one value per row. -/
def dfCloses (df : DataFrame) : List ℚ :=
  (df.rows.map Row.c).filterMap coerceEntry

/-- The numeric values of the high column (line 97). -/
def highCol (df : DataFrame) : List ℚ :=
  (df.rows.map Row.h).filterMap coerceEntry

/-- The numeric values of the low column (line 98). -/
def lowCol (df : DataFrame) : List ℚ :=
  (df.rows.map Row.l).filterMap coerceEntry

/-- `talib.SMA(closes, timeperiod=p)[-1]`: the arithmetic mean of the last
`p` closes (lines 85-87; only evaluated under the guard `len(closes) >= p`,
and for `len(closes) >= p` the last SMA output is exactly this mean). -/
def smaLast (closes : List ℚ) (p : ℕ) : ℚ :=
  (closes.drop (closes.length - p)).sum / p

/-- The moving-average slot of period `p` before rounding: the guarded SMA of
lines 85-87 (`None` when the series is shorter than the period). -/
def maRaw (df : DataFrame) (p : ℕ) : Option ℚ :=
  if p ≤ df.rows.length then some (smaLast (dfCloses df) p) else none

/-- The gain part of one close-to-close difference (Wilder RSI). -/
def gainOf (d : ℚ) : ℚ := max d 0

/-- The loss part of one close-to-close difference (Wilder RSI). -/
def lossOf (d : ℚ) : ℚ := max (-d) 0

/-- Consecutive close-to-close differences `c[i+1] - c[i]`. -/
def diffsOf (closes : List ℚ) : List ℚ :=
  List.zipWith (fun a b => b - a) closes closes.tail

/-- One Wilder smoothing step of TA-Lib RSI: the running average gain and
loss are updated as `(prev * 13 + new) / 14`. -/
def wilderStep (p : ℚ × ℚ) (d : ℚ) : ℚ × ℚ :=
  ((p.1 * 13 + gainOf d) / 14, (p.2 * 13 + lossOf d) / 14)

/-- `talib.RSI(closes, timeperiod=14)[-1]` under the guard of line 90:
`None` for fewer than 14 closes (guard fails); NaN for exactly 14 closes
(TA-Lib's lookback is 14, so the whole output array is NaN); otherwise
Wilder's RSI: seed averages over the first 14 differences, smooth over the
rest, and return `100 * up / (up + down)`, or 0 when `up + down` is zero
(TA-Lib's zero-divisor branch). -/
def rsiLast (closes : List ℚ) : Option EValue :=
  let n := closes.length
  if n < 14 then none
  else if n = 14 then some .nanV
  else
    let ds := diffsOf closes
    let up0 := ((ds.take 14).map gainOf).sum / 14
    let dn0 := ((ds.take 14).map lossOf).sum / 14
    let ud := (ds.drop 14).foldl wilderStep (up0, dn0)
    some (.fin (if ud.1 + ud.2 = 0 then 0 else 100 * ud.1 / (ud.1 + ud.2)))

/-- Tail of `pct_change` (line 93): each return is `c[i] / c[i-1] - 1`, with
pandas float semantics at a zero previous close: `0 / 0` is NaN and a nonzero
close over zero is a signed infinity. -/
def pctChangeGo : ℚ → List ℚ → List RVal
  | _, [] => []
  | prev, x :: rest =>
    (if prev = 0 then (if x = 0 then RVal.nanR else RVal.infR (decide (x < 0)))
     else RVal.finR (x / prev - 1)) :: pctChangeGo x rest

/-- `pct_change` of the close column (line 93): the first cell is NaN, the
rest are day-over-day returns. -/
def pctChange : List ℚ → List RVal
  | [] => []
  | x :: rest => RVal.nanR :: pctChangeGo x rest

/-- Whether a returns cell is infinite (poisons the standard deviation). -/
def rvalIsInf : RVal → Bool
  | .infR _ => true
  | _ => false

/-- The finite value of a returns cell, if any (NaN cells are skipped by
pandas `std`). -/
def rvalFin : RVal → Option ℚ
  | .finR q => some q
  | _ => none

/-- Sample variance with `ddof=1` (the square of pandas `std`), evaluated on
the finite observations; only used when at least two are present. -/
def sampleVar (xs : List ℚ) : ℚ :=
  let n := xs.length
  let m := xs.sum / n
  (xs.map (fun x => (x - m) ^ 2)).sum / (n - 1)

/-- `returns.tail(30).std() * 252 ** 0.5` (line 94): the trailing (at most)
30 returns; NaN if any is infinite or fewer than two are finite (pandas
`std` skips NaN and needs two observations with `ddof=1`); otherwise the
square root of `252 * variance`, kept symbolic until rounding. -/
def volatilityRaw (returns : List RVal) : EValue :=
  let t := returns.drop (returns.length - 30)
  if t.any rvalIsInf then .nanV
  else
    let xs := t.filterMap rvalFin
    if xs.length < 2 then .nanV
    else .sqrtv (252 * sampleVar xs)

/-- Round-half-to-even to the nearest integer (Python's `round`), computed
on the reduced fraction `num / den`: with `f = ⌊x⌋` and remainder `r`, the
fractional part is compared with one half by comparing `2 * r` with `den`,
and an exact tie goes to the even neighbour. -/
def roundHalfEven (x : ℚ) : ℤ :=
  let d : ℤ := (x.den : ℤ)
  let f : ℤ := x.num.fdiv d
  let r : ℤ := x.num - f * d
  if 2 * r < d then f
  else if d < 2 * r then f + 1
  else if f % 2 = 0 then f else f + 1

/-- Python `round(x, 2)` on an exact rational. -/
def pyRound2 (q : ℚ) : ℚ :=
  ((roundHalfEven (q * 100) : ℤ) : ℚ) / 100

/-- Newton iteration for the integer square root, with explicit fuel so the
recursion is structural and the kernel can evaluate it.  The guess strictly
decreases until it reaches `⌊√n⌋`, so any fuel of at least the initial guess
is enough. -/
def isqrtGo (n : ℕ) : ℕ → ℕ → ℕ
  | guess, 0 => guess
  | guess, fuel + 1 =>
    let next := (guess + n / guess) / 2
    if next < guess then isqrtGo n next fuel else guess

/-- `⌊√n⌋` for a natural number. -/
def isqrt (n : ℕ) : ℕ :=
  if n ≤ 1 then n else isqrtGo n (n / 2 + 1) (n + 1)

/-- The numerator (in hundredths) of `round(sqrt(q), 2)` for a nonnegative
rational `q = a / b`: with `t = 10000 * a * b`, the integer part of
`100 * sqrt q` is `⌊√t⌋ / b`, and the comparison of `100 * sqrt q` with
`f + 1/2` (for the half-to-even tie rule) is decided by comparing `4 * t`
with `b² * (2f+1)²`. -/
def roundSqrt2Num (q : ℚ) : ℕ :=
  let a := q.num.toNat
  let b := q.den
  let t := 10000 * a * b
  let m := isqrt t
  let f := m / b
  if 4 * t < (2 * f * b + b) ^ 2 then f
  else if (2 * f * b + b) ^ 2 < 4 * t then f + 1
  else if f % 2 = 0 then f else f + 1

/-- Python `round(sqrt(q), 2)` computed exactly for a nonnegative rational. -/
def roundSqrt2 (q : ℚ) : ℚ := (roundSqrt2Num q : ℚ) / 100

/-- The rounding loop of lines 114-117 on one value: finite values are
rounded to 2 decimals, NaN stays NaN (`round(nan, 2)` is NaN), and the
symbolic square root is resolved to its exact 2-decimal rounding. -/
def roundE : EValue → EValue
  | .fin q => .fin (pyRound2 q)
  | .nanV => .nanV
  | .sqrtv q => .fin (roundSqrt2 q)

/-- Line 101: `float(current_price) if current_price else closes[-1]` —
Python truthiness means that an absent price AND a supplied price of zero
both fall back to the last close. -/
def effPrice (cp : Option ℚ) (closes : List ℚ) : ℚ :=
  match cp with
  | some q => if q = 0 then closes.getLastD 0 else q
  | none => closes.getLastD 0

/-- Lines 104-112: the position label.  `if indicators['ma_50']:` is a
truthiness test, so both an absent MA and an MA equal to 0.0 yield `None`;
otherwise the label is `above` exactly when the current price exceeds the
(unrounded) moving average. -/
def vsLabel (cpv : ℚ) (ma : Option ℚ) : Option Trend :=
  match ma with
  | some m => if m = 0 then none else some (if m < cpv then .above else .below)
  | none => none

/-- Maximum of a list of rationals (pandas `max` on an all-finite column). -/
def listMax : List ℚ → ℚ
  | [] => 0
  | x :: rest => rest.foldl max x

/-- Minimum of a list of rationals (pandas `min` on an all-finite column). -/
def listMin : List ℚ → ℚ
  | [] => 0
  | x :: rest => rest.foldl min x

/-- The in-place mutation of line 93: the input DataFrame gains a `returns`
column holding `pct_change` of the close column. -/
def mutatedDf (df : DataFrame) : DataFrame :=
  { df with returnsCol := some (pctChange (dfCloses df)) }

/-- The dictionary built on the success path of lines 82-119: guarded SMAs,
RSI, volatility, whole-series high/low, effective current price, position
labels computed from the unrounded values, then the rounding loop applied to
every non-`None` numeric slot. -/
def successSet (df : DataFrame) (cp : Option ℚ) : IndicatorSet :=
  { ma_20 := (maRaw df 20).map pyRound2
    ma_50 := (maRaw df 50).map pyRound2
    ma_200 := (maRaw df 200).map pyRound2
    rsi := (rsiLast (dfCloses df)).map roundE
    volatility_30d := roundE (volatilityRaw (pctChange (dfCloses df)))
    high_52w := pyRound2 (listMax (highCol df))
    low_52w := pyRound2 (listMin (lowCol df))
    current_price := pyRound2 (effPrice cp (dfCloses df))
    vs_ma50 := vsLabel (effPrice cp (dfCloses df)) (maRaw df 50)
    vs_ma200 := vsLabel (effPrice cp (dfCloses df)) (maRaw df 200) }

/-- `calculate_technical_indicators` (lines 69-123).  Control flow of the
source: an empty DataFrame returns `None` at line 75 (before the `try`); a
non-numeric close cell raises inside the `try` no later than line 93 — before
the `returns` column is assigned — and the handler returns `None`; after
line 93 the DataFrame carries the new column, and a non-numeric high or low
cell raises at line 97/98, again returning `None`; otherwise the indicator
dictionary is returned.  The second component is the (possibly mutated)
DataFrame the caller is left with. -/
def calculate_technical_indicators (df : DataFrame) (cp : Option ℚ) :
    Option IndicatorSet × DataFrame :=
  if df.rows = [] then (none, df)
  else if (df.rows.map Row.c).any entryBad then (none, df)
  else if (df.rows.map Row.h).any entryBad then (none, mutatedDf df)
  else if (df.rows.map Row.l).any entryBad then (none, mutatedDf df)
  else (some (successSet df cp), mutatedDf df)

/-- A value with exactly two decimal places. -/
def TwoDecimal (q : ℚ) : Prop := ∃ k : ℤ, q = (k : ℚ) / 100

/-- One upstream search result as read by `search_symbols` (lines 242-246). -/
structure SearchItem where
  country : String
  exchange : String
  mic_code : String
deriving DecidableEq

/-- Python `str.upper` restricted to ASCII behaviour per character. -/
def upStr (s : String) : String := String.mk (s.data.map Char.toUpper)

/-- Whether `pat` is an initial segment of `s` (on character lists). -/
def listIsInit : List Char → List Char → Bool
  | [], _ => true
  | _ :: _, [] => false
  | p :: ps, c :: cs => p == c && listIsInit ps cs

/-- Python's substring test `pat in s` (on character lists). -/
def listContainsSub (pat : List Char) : List Char → Bool
  | [] => pat.isEmpty
  | c :: cs => listIsInit pat (c :: cs) || listContainsSub pat cs

/-- Python's substring test `pat in s` on strings. -/
def containsU (s pat : String) : Bool := listContainsSub pat.data s.data

/-- The `is_us_stock` condition of lines 249-259: after uppercasing, the
country equals one of the US names, or the exchange CONTAINS one of the US
exchange names, or the MIC code CONTAINS one of the US MIC codes. -/
def is_us_stock (item : SearchItem) : Bool :=
  let country := upStr item.country
  let exchange := upStr item.exchange
  let mic := upStr item.mic_code
  country == "UNITED STATES" || country == "US" || country == "USA" ||
    containsU exchange "NASDAQ" || containsU exchange "NYSE" ||
    containsU exchange "AMEX" || containsU mic "XNAS" ||
    containsU mic "XNYS" || containsU mic "XASE"

/-- The accumulation loop of lines 242-266: matching items are appended and
the loop breaks as soon as eight have been collected. -/
def usLoopGo : List SearchItem → List SearchItem → List SearchItem
  | [], acc => acc
  | item :: rest, acc =>
    if is_us_stock item then
      let acc1 := acc ++ [item]
      if 8 ≤ acc1.length then acc1 else usLoopGo rest acc1
    else usLoopGo rest acc

/-- The filtered result list of the search endpoint (lines 239-273). -/
def search_symbols (items : List SearchItem) : List SearchItem :=
  usLoopGo items []

/-- Modelled from the claim's words, for comparison with `is_us_stock`:
country is US, USA, or UNITED STATES; or exchange contains NASDAQ, NYSE, or
AMEX; or mic_code IS A MEMBER OF the set XNAS, XNYS, XASE. -/
def claimedUsPred (item : SearchItem) : Bool :=
  item.country == "US" || item.country == "USA" ||
    item.country == "UNITED STATES" ||
    containsU item.exchange "NASDAQ" || containsU item.exchange "NYSE" ||
    containsU item.exchange "AMEX" || item.mic_code == "XNAS" ||
    item.mic_code == "XNYS" || item.mic_code == "XASE"

/-- A bar whose close, high and low all equal `q`. -/
def rowQ (q : ℚ) : Row := { c := .num q, h := .num q, l := .num q }

/-- The 25-bar strictly increasing series of the C1 example: closes 100.00,
101.00, ..., 124.00. -/
def c1df : DataFrame :=
  { rows := (List.range 25).map fun i => rowQ ((100 : ℚ) + i) }

/-- 50 bars whose prices are all exactly zero: the SMA(50) is 0.0, which is
falsy in Python. -/
def c2df : DataFrame := { rows := List.replicate 50 (rowQ 0) }

/-- A single bar with a non-numeric close. -/
def dfBad : DataFrame :=
  { rows := [{ c := .other, h := .num 1, l := .num 1 }] }

/-- The empty series. -/
def emptyDf : DataFrame := { rows := [] }

/-- A two-bar numeric series (closes 1 and 2). -/
def df2 : DataFrame := { rows := [rowQ 1, rowQ 2] }

/-- The indicator set the function returns on `df2` with current price 3. -/
def ind2 : IndicatorSet :=
  { ma_20 := none, ma_50 := none, ma_200 := none, rsi := none,
    volatility_30d := .nanV, high_52w := 2, low_52w := 1, current_price := 3,
    vs_ma50 := none, vs_ma200 := none }

/-- Twenty bars all at price 1. -/
def df20 : DataFrame := { rows := List.replicate 20 (rowQ 1) }

/-- The indicator set the function returns on `df20` (any falsy price). -/
def ind20 : IndicatorSet :=
  { ma_20 := some 1, ma_50 := none, ma_200 := none, rsi := some (.fin 0),
    volatility_30d := .fin 0, high_52w := 1, low_52w := 1, current_price := 1,
    vs_ma50 := none, vs_ma200 := none }

/-- Two hundred bars all at price 1. -/
def df200 : DataFrame := { rows := List.replicate 200 (rowQ 1) }

/-- The indicator set the function returns on `df200` with current price 5. -/
def ind200 : IndicatorSet :=
  { ma_20 := some 1, ma_50 := some 1, ma_200 := some 1, rsi := some (.fin 0),
    volatility_30d := .fin 0, high_52w := 1, low_52w := 1, current_price := 5,
    vs_ma50 := some .above, vs_ma200 := some .above }

/-- 200 bars: prices 1, 2, then 198 ones. -/
def c8dfA : DataFrame :=
  { rows := rowQ 1 :: rowQ 2 :: List.replicate 198 (rowQ 1) }

/-- The same 200 bars with the first two swapped: prices 2, 1, then 198
ones — a reordering of `c8dfA`. -/
def c8dfB : DataFrame :=
  { rows := rowQ 2 :: rowQ 1 :: List.replicate 198 (rowQ 1) }

/-- A non-US item whose MIC code merely CONTAINS the string XNAS. -/
def c9bad : SearchItem :=
  { country := "CANADA", exchange := "TSX", mic_code := "AXNASB" }

/-- The result component of the function is `none` exactly on the failure
branches, and `successSet` otherwise. -/
theorem calcTI_fst_eq (df : DataFrame) (cp : Option ℚ) :
    (calculate_technical_indicators df cp).1 =
      if df.rows = [] ∨ (df.rows.map Row.c).any entryBad = true
          ∨ (df.rows.map Row.h).any entryBad = true
          ∨ (df.rows.map Row.l).any entryBad = true
        then none
        else some (successSet df cp) := by
  unfold calculate_technical_indicators
  by_cases h1 : df.rows = [] <;>
    by_cases h2 : (df.rows.map Row.c).any entryBad = true <;>
    by_cases h3 : (df.rows.map Row.h).any entryBad = true <;>
    by_cases h4 : (df.rows.map Row.l).any entryBad = true <;>
    simp [h1, h2, h3, h4]

/-- The DataFrame component the caller is left with: unchanged when the
function fails at or before line 93, otherwise carrying the new `returns`
column. -/
theorem calcTI_snd_eq (df : DataFrame) (cp : Option ℚ) :
    (calculate_technical_indicators df cp).2 =
      if df.rows = [] ∨ (df.rows.map Row.c).any entryBad = true
        then df else mutatedDf df := by
  unfold calculate_technical_indicators
  by_cases h1 : df.rows = [] <;>
    by_cases h2 : (df.rows.map Row.c).any entryBad = true <;>
    by_cases h3 : (df.rows.map Row.h).any entryBad = true <;>
    by_cases h4 : (df.rows.map Row.l).any entryBad = true <;>
    simp [h1, h2, h3, h4]

/-- A returned indicator set is the success value, and on the success path
the series is nonempty and every column cell is numeric. -/
theorem calcTI_success_spec (df : DataFrame) (cp : Option ℚ) (ind : IndicatorSet)
    (h : (calculate_technical_indicators df cp).1 = some ind) :
    ind = successSet df cp ∧ df.rows ≠ [] ∧
      (df.rows.map Row.c).any entryBad = false ∧
      (df.rows.map Row.h).any entryBad = false ∧
      (df.rows.map Row.l).any entryBad = false := by
  rw [calcTI_fst_eq] at h
  split at h
  · exact absurd h (by simp)
  · rename_i hc
    push_neg at hc
    obtain ⟨hc1, hc2, hc3, hc4⟩ := hc
    exact ⟨(Option.some.inj h).symm, hc1,
      Bool.not_eq_true _ ▸ hc2, Bool.not_eq_true _ ▸ hc3, Bool.not_eq_true _ ▸ hc4⟩

/-- When every close cell is numeric, the coerced close list has one value
per row. -/
theorem filterMap_coerce_length (l : List Row)
    (h : (l.map Row.c).any entryBad = false) :
    ((l.map Row.c).filterMap coerceEntry).length = l.length := by
  induction l with
  | nil => simp
  | cons r t ih =>
    rcases hr : r.c with q | _
    · simp only [List.map_cons, List.any_cons, hr, entryBad, Bool.false_or] at h
      have e : (List.map Row.c (r :: t)).filterMap coerceEntry
          = q :: (List.map Row.c t).filterMap coerceEntry := by
        simp [hr, coerceEntry]
      rw [e, List.length_cons, List.length_cons, ih h]
    · simp [hr, entryBad] at h

/-- `pyRound2` always produces a value with two decimal places. -/
theorem twoDecimal_pyRound2 (q : ℚ) : TwoDecimal (pyRound2 q) :=
  ⟨roundHalfEven (q * 100), rfl⟩

/-- `roundSqrt2` always produces a value with two decimal places. -/
theorem twoDecimal_roundSqrt2 (q : ℚ) : TwoDecimal (roundSqrt2 q) := by
  refine ⟨(roundSqrt2Num q : ℤ), ?_⟩
  rw [roundSqrt2]
  push_cast
  rfl

/-- Claim C3 (amended): the function signals failure — the value `None`,
without raising — exactly when the series is empty or some close, high or
low cell is non-numeric (the exception paths of lines 121-123); the
empty-series failure and the computation-error failure are the same value,
so the caller cannot tell them apart. -/
theorem c3_failure_modes (df : DataFrame) (cp : Option ℚ) :
    (calculate_technical_indicators df cp).1 = none ↔
      (df.rows = [] ∨ (df.rows.map Row.c).any entryBad = true
        ∨ (df.rows.map Row.h).any entryBad = true
        ∨ (df.rows.map Row.l).any entryBad = true) := by
  rw [calcTI_fst_eq]
  split <;> simp_all

/-- Claim C3, counterexample to the original claim: the empty-series failure
and the computation-error failure (non-numeric close on a nonempty series)
produce the very same return value `None`, so they are not two
distinguishable failure kinds. -/
theorem c3_counterexample :
    emptyDf.rows = [] ∧ dfBad.rows ≠ [] ∧
      (calculate_technical_indicators emptyDf none).1 =
        (calculate_technical_indicators dfBad none).1 := by decide!

/-- Claim C4 (amended): a non-numeric close entry is coerced to the missing
marker by the `errors='coerce'` conversion of line 79, but the strict
re-parsing of the close column at line 93 raises on it, so on every
non-empty series containing a non-numeric close the function signals failure
(returns `None`) instead of producing an indicator set. -/
theorem c4_non_numeric_close (df : DataFrame) (cp : Option ℚ)
    (hne : df.rows ≠ []) (hbad : (df.rows.map Row.c).any entryBad = true) :
    coerceEntry Entry.other = none ∧
      (calculate_technical_indicators df cp).1 = none := by
  refine ⟨rfl, ?_⟩
  rw [calcTI_fst_eq]
  simp [hbad]

/-- Claim C4, witness: the amended theorem applied to a concrete one-bar
series with a non-numeric close. -/
theorem c4_witness :
    dfBad.rows ≠ [] ∧ (dfBad.rows.map Row.c).any entryBad = true ∧
      (calculate_technical_indicators dfBad (some 5)).1 = none :=
  ⟨by decide, by decide,
    (c4_non_numeric_close dfBad (some 5) (by decide) (by decide)).2⟩

/-- Claim C4, counterexample to the original claim: on the non-empty series
whose single close is non-numeric the function does NOT produce an
indicator-set result — it returns the failure value `None`. -/
theorem c4_counterexample :
    dfBad.rows ≠ [] ∧ (calculate_technical_indicators dfBad (some 5)).1 = none := by
  decide!

/-- Claim C5: in every returned indicator set, `ma_20` is absent when the
series has fewer than 20 bars and otherwise equals the arithmetic mean of
the last 20 closes rounded to 2 decimal places; analogously `ma_50` with
window 50 and `ma_200` with window 200. -/
theorem c5_ma_windows (df : DataFrame) (cp : Option ℚ) (ind : IndicatorSet)
    (h : (calculate_technical_indicators df cp).1 = some ind) :
    (df.rows.length < 20 → ind.ma_20 = none) ∧
    (20 ≤ df.rows.length → ind.ma_20 = some (pyRound2 (smaLast (dfCloses df) 20))) ∧
    (df.rows.length < 50 → ind.ma_50 = none) ∧
    (50 ≤ df.rows.length → ind.ma_50 = some (pyRound2 (smaLast (dfCloses df) 50))) ∧
    (df.rows.length < 200 → ind.ma_200 = none) ∧
    (200 ≤ df.rows.length → ind.ma_200 = some (pyRound2 (smaLast (dfCloses df) 200))) := by
  obtain ⟨rfl, -, -, -, -⟩ := calcTI_success_spec df cp ind h
  refine ⟨fun hn => ?_, fun hn => ?_, fun hn => ?_, fun hn => ?_, fun hn => ?_,
    fun hn => ?_⟩ <;>
    simp [successSet, maRaw, hn, Nat.not_le.mpr, *]

/-- Claim C5, witness: the theorem applied to a concrete 20-bar series. -/
theorem c5_witness :
    (calculate_technical_indicators df20 none).1 = some ind20 ∧
      20 ≤ df20.rows.length ∧
      ind20.ma_20 = some (pyRound2 (smaLast (dfCloses df20) 20)) :=
  ⟨by decide!, by decide,
    (c5_ma_windows df20 none ind20 (by decide!)).2.1 (by decide)⟩

/-- Claim C7 (amended): the call is deterministic — the outcome is a
function of the input DataFrame and price — and it leaves the bars (rows)
untouched, but it does NOT leave the input DataFrame unchanged: whenever the
close column parses numerically on a nonempty series, the input gains a
`returns` column (the in-place assignment of line 93). -/
theorem c7_frame (df : DataFrame) (cp : Option ℚ) :
    (calculate_technical_indicators df cp).2.rows = df.rows ∧
    (calculate_technical_indicators df cp).2 =
      (if df.rows = [] ∨ (df.rows.map Row.c).any entryBad = true
        then df else mutatedDf df) := by
  refine ⟨?_, calcTI_snd_eq df cp⟩
  rw [calcTI_snd_eq df cp]
  split <;> simp [mutatedDf]

/-- Claim C7, counterexample to the original claim: on a two-bar numeric
series the input DataFrame is mutated by the call — the DataFrame the caller
is left with differs from the one passed in (it has gained the `returns`
column). -/
theorem c7_counterexample :
    (calculate_technical_indicators df2 (some 1)).2 ≠ df2 := by decide!

/-- Claim C1 (amended): on the 25-bar series of closes 100.00 .. 124.00 with
current price 124.00, the returned `ma_20` is defined and equals 114.50 (the
mean of the last 20 closes, 229/2), `ma_50` and `ma_200` are absent,
`vs_ma50` is absent, and `rsi` is defined and equals 100.00 exactly (a
strictly increasing series has zero average loss). -/
theorem c1_end_to_end :
    (calculate_technical_indicators c1df (some 124)).1.map IndicatorSet.ma_20
        = some (some (229/2)) ∧
    (calculate_technical_indicators c1df (some 124)).1.map IndicatorSet.ma_50
        = some none ∧
    (calculate_technical_indicators c1df (some 124)).1.map IndicatorSet.ma_200
        = some none ∧
    (calculate_technical_indicators c1df (some 124)).1.map IndicatorSet.vs_ma50
        = some none ∧
    (calculate_technical_indicators c1df (some 124)).1.map IndicatorSet.rsi
        = some (some (.fin 100)) := by
  refine ⟨by decide!, by decide!, by decide!, by decide!, by decide!⟩

/-- Claim C1, counterexample to the original claim: on that input the
returned `ma_20` is 114.50 (= 229/2), not 115.50 (= 231/2) — the mean of the
last 20 closes 105.00 .. 124.00 is 114.50. -/
theorem c1_counterexample :
    (calculate_technical_indicators c1df (some 124)).1.map IndicatorSet.ma_20
        ≠ some (some (231/2)) ∧
    (calculate_technical_indicators c1df (some 124)).1.map IndicatorSet.ma_20
        = some (some (229/2)) := by
  refine ⟨by decide!, by decide!⟩

/-- The position label against the guarded moving average, split into the
three outcomes. -/
theorem vsLabel_maRaw (df : DataFrame) (cpv : ℚ) (p : ℕ) :
    (vsLabel cpv (maRaw df p) = none ↔
      (df.rows.length < p ∨ smaLast (dfCloses df) p = 0)) ∧
    (vsLabel cpv (maRaw df p) = some .above ↔
      (p ≤ df.rows.length ∧ smaLast (dfCloses df) p ≠ 0 ∧
        smaLast (dfCloses df) p < cpv)) ∧
    (vsLabel cpv (maRaw df p) = some .below ↔
      (p ≤ df.rows.length ∧ smaLast (dfCloses df) p ≠ 0 ∧
        cpv ≤ smaLast (dfCloses df) p)) := by
  unfold maRaw vsLabel
  by_cases hp : p ≤ df.rows.length
  · by_cases hm : smaLast (dfCloses df) p = 0
    · simp [hp, hm, Nat.not_lt.mpr hp]
    · by_cases hlt : smaLast (dfCloses df) p < cpv
      · simp [hp, hm, hlt, Nat.not_lt.mpr hp, le_of_lt]
      · simp [hp, hm, hlt, Nat.not_lt.mpr hp, not_lt.mp hlt]
  · simp [hp, Nat.not_le.mp hp]

/-- Claim C2 (amended): in every returned indicator set, `vs_ma50` is absent
exactly when the 50-bar average is unavailable OR its (unrounded) value is
zero — Python's `if indicators['ma_50']:` is a truthiness test; when the
average is available and nonzero, the label is `above` exactly when the
effective current price exceeds the unrounded average and `below` exactly
when it does not.  The same holds for `vs_ma200` with window 200. -/
theorem c2_vs_labels (df : DataFrame) (cp : Option ℚ) (ind : IndicatorSet)
    (h : (calculate_technical_indicators df cp).1 = some ind) :
    (ind.vs_ma50 = none ↔
      (df.rows.length < 50 ∨ smaLast (dfCloses df) 50 = 0)) ∧
    (ind.vs_ma50 = some .above ↔
      (50 ≤ df.rows.length ∧ smaLast (dfCloses df) 50 ≠ 0 ∧
        smaLast (dfCloses df) 50 < effPrice cp (dfCloses df))) ∧
    (ind.vs_ma50 = some .below ↔
      (50 ≤ df.rows.length ∧ smaLast (dfCloses df) 50 ≠ 0 ∧
        effPrice cp (dfCloses df) ≤ smaLast (dfCloses df) 50)) ∧
    (ind.vs_ma200 = none ↔
      (df.rows.length < 200 ∨ smaLast (dfCloses df) 200 = 0)) ∧
    (ind.vs_ma200 = some .above ↔
      (200 ≤ df.rows.length ∧ smaLast (dfCloses df) 200 ≠ 0 ∧
        smaLast (dfCloses df) 200 < effPrice cp (dfCloses df))) ∧
    (ind.vs_ma200 = some .below ↔
      (200 ≤ df.rows.length ∧ smaLast (dfCloses df) 200 ≠ 0 ∧
        effPrice cp (dfCloses df) ≤ smaLast (dfCloses df) 200)) := by
  obtain ⟨rfl, -, -, -, -⟩ := calcTI_success_spec df cp ind h
  have h50 := vsLabel_maRaw df (effPrice cp (dfCloses df)) 50
  have h200 := vsLabel_maRaw df (effPrice cp (dfCloses df)) 200
  exact ⟨h50.1, h50.2.1, h50.2.2, h200.1, h200.2.1, h200.2.2⟩

/-- Claim C2, witness: the theorem applied to a concrete 200-bar series at
constant price 1 with current price 5. -/
theorem c2_witness :
    (calculate_technical_indicators df200 (some 5)).1 = some ind200 ∧
      (ind200.vs_ma50 = some .above ↔
        (50 ≤ df200.rows.length ∧ smaLast (dfCloses df200) 50 ≠ 0 ∧
          smaLast (dfCloses df200) 50 < effPrice (some 5) (dfCloses df200))) :=
  ⟨by decide!, (c2_vs_labels df200 (some 5) ind200 (by decide!)).2.1⟩

/-- Claim C2, counterexample to the original claim: on 50 bars priced 0.00
with current price 5.00, the returned `ma_50` is DEFINED (it is 0.0) yet
`vs_ma50` is absent — and it is not `above` although current_price > ma_50 —
because `if indicators['ma_50']:` treats the float 0.0 as false. -/
theorem c2_counterexample :
    (calculate_technical_indicators c2df (some 5)).1.map IndicatorSet.ma_50
        = some (some 0) ∧
    (calculate_technical_indicators c2df (some 5)).1.map IndicatorSet.vs_ma50
        = some none := by
  refine ⟨by decide!, by decide!⟩

/-- Claim C6: in every returned indicator set, every numeric field that is
present as a finite number — `ma_20`, `ma_50`, `ma_200`, `rsi`,
`volatility_30d`, `high_52w`, `low_52w`, `current_price` — carries exactly
two decimal places (it is an integer number of hundredths), because the loop
of lines 114-117 rounds every non-`None` slot. -/
theorem c6_two_decimals (df : DataFrame) (cp : Option ℚ) (ind : IndicatorSet)
    (h : (calculate_technical_indicators df cp).1 = some ind) :
    (∀ q, ind.ma_20 = some q → TwoDecimal q) ∧
    (∀ q, ind.ma_50 = some q → TwoDecimal q) ∧
    (∀ q, ind.ma_200 = some q → TwoDecimal q) ∧
    (∀ q, ind.rsi = some (.fin q) → TwoDecimal q) ∧
    (∀ q, ind.volatility_30d = .fin q → TwoDecimal q) ∧
    TwoDecimal ind.high_52w ∧ TwoDecimal ind.low_52w ∧
    TwoDecimal ind.current_price := by
  obtain ⟨rfl, -, -, -, -⟩ := calcTI_success_spec df cp ind h
  refine ⟨?_, ?_, ?_, ?_, ?_, twoDecimal_pyRound2 _, twoDecimal_pyRound2 _,
    twoDecimal_pyRound2 _⟩
  · intro q hq
    obtain ⟨m, -, rfl⟩ := Option.map_eq_some'.mp hq
    exact twoDecimal_pyRound2 m
  · intro q hq
    obtain ⟨m, -, rfl⟩ := Option.map_eq_some'.mp hq
    exact twoDecimal_pyRound2 m
  · intro q hq
    obtain ⟨m, -, rfl⟩ := Option.map_eq_some'.mp hq
    exact twoDecimal_pyRound2 m
  · intro q hq
    obtain ⟨v, -, hv⟩ := Option.map_eq_some'.mp hq
    rcases v with w | _ | w <;> simp [roundE] at hv <;> rw [← hv]
    · exact twoDecimal_pyRound2 w
    · exact twoDecimal_roundSqrt2 w
  · intro q hq
    rcases hv : volatilityRaw (pctChange (dfCloses df)) with w | _ | w <;>
      simp only [successSet, hv, roundE] at hq
    · have e : pyRound2 w = q := EValue.fin.inj hq
      rw [← e]
      exact twoDecimal_pyRound2 w
    · exact absurd hq (by simp)
    · have e : roundSqrt2 w = q := EValue.fin.inj hq
      rw [← e]
      exact twoDecimal_roundSqrt2 w

/-- Claim C6, witness: the theorem applied to a concrete two-bar series. -/
theorem c6_witness :
    (calculate_technical_indicators df2 (some 3)).1 = some ind2 ∧
      TwoDecimal ind2.high_52w :=
  ⟨by decide!,
    (c6_two_decimals df2 (some 3) ind2 (by decide!)).2.2.2.2.2.1⟩

/-- Claim C8 (amended): in every returned indicator set on a series of at
least 200 bars, `ma_200` is defined and equals the rounded mean of the last
200 closes; consequently it depends only on the multiset of those closes —
any two inputs whose last-200 close windows are permutations of each other
yield the same `ma_200`, so reordering within the window does NOT change the
value. -/
theorem c8_ma200_window (dfa dfb : DataFrame) (cpa cpb : Option ℚ)
    (inda indb : IndicatorSet)
    (ha : (calculate_technical_indicators dfa cpa).1 = some inda)
    (hb : (calculate_technical_indicators dfb cpb).1 = some indb)
    (hNa : 200 ≤ dfa.rows.length) (hNb : 200 ≤ dfb.rows.length)
    (hperm : ((dfCloses dfa).drop ((dfCloses dfa).length - 200)).Perm
      ((dfCloses dfb).drop ((dfCloses dfb).length - 200))) :
    inda.ma_200 = some (pyRound2 (smaLast (dfCloses dfa) 200)) ∧
      inda.ma_200 = indb.ma_200 := by
  obtain ⟨rfl, -, -, -, -⟩ := calcTI_success_spec dfa cpa inda ha
  obtain ⟨rfl, -, -, -, -⟩ := calcTI_success_spec dfb cpb indb hb
  have ea : (successSet dfa cpa).ma_200
      = some (pyRound2 (smaLast (dfCloses dfa) 200)) := by
    simp [successSet, maRaw, hNa]
  have eb : (successSet dfb cpb).ma_200
      = some (pyRound2 (smaLast (dfCloses dfb) 200)) := by
    simp [successSet, maRaw, hNb]
  have hs : smaLast (dfCloses dfa) 200 = smaLast (dfCloses dfb) 200 := by
    unfold smaLast
    rw [hperm.sum_eq]
  exact ⟨ea, by rw [ea, eb, hs]⟩

/-- Claim C8, witness: the theorem applied to a concrete 200-bar series
(compared with itself under the identity permutation). -/
theorem c8_witness :
    (calculate_technical_indicators df200 (some 5)).1 = some ind200 ∧
      200 ≤ df200.rows.length ∧
      ind200.ma_200 = some (pyRound2 (smaLast (dfCloses df200) 200)) :=
  ⟨by decide!, by decide,
    (c8_ma200_window df200 df200 (some 5) (some 5) ind200 ind200 (by decide!)
      (by decide!) (by decide) (by decide) (List.Perm.refl _)).1⟩

/-- Claim C8, counterexample to the original claim: the 200-bar series
`c8dfB` is a reordering of `c8dfA` (the first two bars are swapped, so the
inputs differ), yet both yield exactly the same `ma_200` — reordering the
closes does not change the result, because the mean of the last 200 closes
is permutation-invariant. -/
theorem c8_counterexample :
    c8dfA ≠ c8dfB ∧ c8dfB.rows.Perm c8dfA.rows ∧
    (calculate_technical_indicators c8dfA (some 1)).1.map IndicatorSet.ma_200
        = some (some 1) ∧
    (calculate_technical_indicators c8dfB (some 1)).1.map IndicatorSet.ma_200
        = some (some 1) :=
  ⟨by decide!, List.Perm.swap (rowQ 1) (rowQ 2) (List.replicate 198 (rowQ 1)),
    by decide!, by decide!⟩

/-- The accumulation loop collects, after any partially filled accumulator,
exactly the next matching items up to the cap of eight. -/
theorem usLoopGo_spec (items : List SearchItem) :
    ∀ acc : List SearchItem, acc.length < 8 →
      usLoopGo items acc = acc ++ (items.filter is_us_stock).take (8 - acc.length) := by
  induction items with
  | nil =>
    intro acc hlt
    simp [usLoopGo]
  | cons item rest ih =>
    intro acc hlt
    unfold usLoopGo
    by_cases hus : is_us_stock item = true
    · simp only [hus, if_true]
      by_cases hfull : 8 ≤ (acc ++ [item]).length
      · rw [if_pos hfull]
        have e : 8 - acc.length = 1 := by
          simp only [List.length_append, List.length_cons, List.length_nil] at hfull
          omega
        rw [e, List.filter_cons, if_pos hus]
        simp
      · rw [if_neg hfull, ih (acc ++ [item]) (Nat.lt_of_not_le hfull)]
        have e : 8 - acc.length = (8 - (acc ++ [item]).length) + 1 := by
          simp only [List.length_append, List.length_cons, List.length_nil]
          omega
        rw [e, List.filter_cons, if_pos hus, List.take_succ_cons]
        simp
    · simp only [hus]
      rw [if_neg (by simp [hus]), ih acc hlt]
      simp [List.filter_cons, hus]

/-- Claim C9 (amended): the search endpoint's output is exactly the first
(at most) eight items, in original order, that satisfy the code's US test:
after uppercasing, country equals US, USA, or UNITED STATES, or the exchange
contains NASDAQ, NYSE, or AMEX, or the MIC code CONTAINS XNAS, XNYS, or XASE
as a substring; the output never has more than eight items. -/
theorem c9_us_filter (items : List SearchItem) :
    search_symbols items = (items.filter is_us_stock).take 8 ∧
    (search_symbols items).length ≤ 8 := by
  have h := usLoopGo_spec items [] (by simp)
  simp only [List.nil_append, List.length_nil, Nat.sub_zero] at h
  rw [search_symbols] at *
  refine ⟨h, ?_⟩
  rw [h, List.length_take]
  exact Nat.min_le_left _ _

/-- Claim C9, counterexample to the original claim: an item from Canada on
the TSX whose MIC code is the string AXNASB — which is NOT a member of the
set XNAS, XNYS, XASE — appears in the output, because the code tests
substring containment (`'XNAS' in mic_code`), not set membership. -/
theorem c9_counterexample :
    search_symbols [c9bad] = [c9bad] ∧ claimedUsPred c9bad = false := by
  refine ⟨by decide!, by decide!⟩

/-- Supplying a current price of zero takes the same branch of line 101 as
supplying no price at all. -/
theorem effPrice_zero (l : List ℚ) : effPrice (some 0) l = effPrice none l := by
  simp [effPrice]

/-- The success value does not distinguish a zero price from an absent one. -/
theorem successSet_zero (df : DataFrame) :
    successSet df (some 0) = successSet df none := by
  unfold successSet
  rw [effPrice_zero]

/-- Claim C10: a supplied current price of 0 (a falsy value) behaves exactly
like an absent price — the whole call returns the same outcome — and in
every returned indicator set under a falsy price the `current_price` field
is the rounded last coerced close of the series, so a genuine 0 is never
used for the field or the position comparisons. -/
theorem c10_zero_price_fallback (df : DataFrame) :
    calculate_technical_indicators df (some 0) = calculate_technical_indicators df none ∧
    (∀ ind, (calculate_technical_indicators df none).1 = some ind →
      ind.current_price = pyRound2 ((dfCloses df).getLastD 0)) := by
  constructor
  · unfold calculate_technical_indicators
    rw [successSet_zero]
  · intro ind h
    obtain ⟨rfl, -, -, -, -⟩ := calcTI_success_spec df none ind h
    simp [successSet, effPrice]

/-- Claim C10, witness: the theorem applied to a concrete 20-bar series. -/
theorem c10_witness :
    (calculate_technical_indicators df20 none).1 = some ind20 ∧
      ind20.current_price = pyRound2 ((dfCloses df20).getLastD 0) :=
  ⟨by decide!, (c10_zero_price_fallback df20).2 ind20 (by decide!)⟩

end StockTrackerPro
